import Mathlib

/-
Verification of the map-editing application in `src/src/App.js` (an
OpenLayers/React single-component app).  The component's React state,
the OpenLayers map's layer and interaction collections, and the shared
`vectorSource` ref are embedded as one explicit state record; each
button/select/file handler of the component becomes a state-transforming
function translated line by line from the source.  Numeric style and
coordinate values (JS doubles) are embedded as rationals; JS object
identity of interactions and imported layers is embedded as freshly
allocated numeric ids.
-/

namespace BasicOpenLayers

/-- Geometry kinds offered by the three draw buttons
(`addDrawInteraction('Point' | 'LineString' | 'Polygon')`). -/
inductive DrawType
  | point
  | lineString
  | polygon
deriving DecidableEq

/-- Basemap choices of the layer select (`'osm'` and `'satellite'`). -/
inductive BaseKind
  | osm
  | satellite
deriving DecidableEq

/-- A vector feature: a numeric id standing for JS object identity, plus
its geometry's coordinates (flattened to one coordinate list, which is all
the claims need). -/
structure Feature where
  fid : Nat
  coords : List (ℚ × ℚ)
deriving DecidableEq

/-- A color value as the component produces them: a hex string from the
color input, or an `rgba(r, g, b, a)` value as built in `handleStyleChange`. -/
inductive Color
  | hex (s : String)
  | rgba (r g b : Nat) (a : ℚ)
deriving DecidableEq

/-- `ol/style/Stroke`: `new Stroke()` has no color and no width set. -/
structure Stroke where
  color : Option Color := none
  width : Option ℚ := none
deriving DecidableEq

/-- `ol/style/Fill`: `new Fill()` has no color set. -/
structure Fill where
  color : Option Color := none
deriving DecidableEq

/-- `ol/style/Style`: `new Style()` has neither stroke nor fill set. -/
structure OLStyle where
  stroke : Option Stroke := none
  fill : Option Fill := none
deriving DecidableEq

/-- The mutable per-layer state of an imported GeoJSON `VectorLayer`
object: its visibility flag (OpenLayers layers default to visible),
its style, and the features of its vector source. -/
structure LayerData where
  visible : Bool := true
  style : Option OLStyle := none
  features : List Feature := []
deriving DecidableEq

/-- A reference to a layer in the map's layer collection: the basemap
tile layer, the freehand vector layer (always backed by the single shared
`vectorSource` ref), or an imported GeoJSON layer identified by id. -/
inductive LayerRef
  | tile (k : BaseKind)
  | freehand
  | imported (id : Nat)
deriving DecidableEq

/-- The `property` argument of `handleStyleChange` at its three call
sites: `'color'`, `'strokeWidth'`, `'fillOpacity'`. -/
inductive StyleProp
  | color
  | strokeWidth
  | fillOpacity
deriving DecidableEq

/-- The `value` argument of `handleStyleChange`: a hex color string from
the color input, or a numeric value from a range input. -/
inductive StyleValue
  | colorVal (s : String)
  | numVal (q : ℚ)
deriving DecidableEq

/-- An interaction object added to the map: a `Draw`, a `Modify`, or a
`Translate` holding the array snapshot `vectorSource.current.getFeatures()`
captured at construction.  The numeric id stands for JS object identity. -/
inductive Interaction
  | draw (t : DrawType) (iid : Nat)
  | modify (iid : Nat)
  | translate (snapshot : List Feature) (iid : Nat)
deriving DecidableEq

/-- The identity of an interaction object. -/
def Interaction.iid : Interaction → Nat
  | .draw _ i => i
  | .modify i => i
  | .translate _ i => i

/-- Whether an interaction is a `Draw`. -/
def Interaction.isDraw : Interaction → Bool
  | .draw _ _ => true
  | _ => false

/-- The complete state of the component: React state (`layerType`,
`geoJsonLayers`, `showAllLayers`, `drawInteraction`), the OpenLayers map's
layer and interaction collections, the shared `vectorSource` ref's
features, the heap of imported-layer objects, and two freshness counters
for allocating layer and interaction identities. -/
@[ext]
structure AppState where
  layerType : BaseKind
  mapLayers : List LayerRef
  geoJsonLayers : List Nat
  importedData : Nat → LayerData
  showAllLayers : Bool
  nextLayerId : Nat
  interactions : List Interaction
  drawInteraction : Option Nat
  vectorSource : List Feature
  nextIid : Nat

/-- The `useEffect` with dependency list `[layerType, map, geoJsonLayers]`
(lines 47-72): clears the map's layer collection, adds a tile layer for
the selected basemap, re-adds a freehand vector layer backed by the shared
`vectorSource` ref, then re-adds every imported GeoJSON layer in registry
order. -/
def basemapEffect (s : AppState) : AppState :=
  { s with mapLayers :=
      .tile s.layerType :: .freehand :: s.geoJsonLayers.map .imported }

/-- `handleLayerChange` (lines 74-76) sets `layerType`; the changed
dependency re-runs the layer-rebuild effect. -/
def handleLayerChange (s : AppState) (k : BaseKind) : AppState :=
  basemapEffect { s with layerType := k }

/-- `addDrawInteraction(type)` (lines 78-101): if a draw interaction is
tracked, removes it from the map and clears the tracking state; then
constructs a new `Draw` bound to `vectorSource.current`, adds it to the
map, and tracks it.  (`map.removeInteraction` removes the object with that
identity.) -/
def addDrawInteraction (s : AppState) (t : DrawType) : AppState :=
  let s1 :=
    match s.drawInteraction with
    | some d =>
        { s with
          interactions := s.interactions.filter (fun i => i.iid != d)
          drawInteraction := none }
    | none => s
  { s1 with
    interactions := s1.interactions ++ [.draw t s1.nextIid]
    drawInteraction := some s1.nextIid
    nextIid := s1.nextIid + 1 }

/-- The `drawend` handler of the draw interaction `d` (lines 93-97),
together with the OpenLayers `Draw` contract that on finishing a shape the
completed feature is added to the draw's bound source (this addition
happens after the `drawend` event dispatch, so removing the interaction in
the handler does not prevent it): the feature is appended to
`vectorSource.current`, the interaction is removed from the map, and
`drawInteraction` is set to null. -/
def drawEnd (s : AppState) (d : Nat) (f : Feature) : AppState :=
  { s with
    vectorSource := s.vectorSource ++ [f]
    interactions := s.interactions.filter (fun i => i.iid != d)
    drawInteraction := none }

/-- The style literal of `handleGeoJSONImport` (lines 120-123):
`fill: rgba(255, 255, 255, 0.6)`, `stroke: '#319FD3' width 1`. -/
def importStyle : OLStyle :=
  { stroke := some { color := some (.hex "#319FD3"), width := some 1 }
    fill := some { color := some (.rgba 255 255 255 (0.6 : ℚ)) } }

/-- `handleGeoJSONImport` success path (lines 107-129): the parsed
features become a new `VectorLayer` with the literal import style and the
library-default visibility (the code passes no `visible` option, so the
layer is visible regardless of `showAllLayers`); the layer is added to the
map and appended to `geoJsonLayers`; the state update re-runs the
layer-rebuild effect because the `geoJsonLayers` dependency changed. -/
def handleGeoJSONImport (s : AppState) (features : List Feature) : AppState :=
  basemapEffect
    { s with
      mapLayers := s.mapLayers ++ [.imported s.nextLayerId]
      geoJsonLayers := s.geoJsonLayers ++ [s.nextLayerId]
      importedData := Function.update s.importedData s.nextLayerId
        { visible := true, style := some importStyle, features := features }
      nextLayerId := s.nextLayerId + 1 }

/-- `handleShowHideAll` (lines 134-139): sets every imported layer's
visibility to `!showAllLayers`, then flips the flag.  (`setVisible` does
not touch React state, and `showAllLayers` is not a dependency of the
layer-rebuild effect, so no rebuild runs.) -/
def handleShowHideAll (s : AppState) : AppState :=
  { s with
    importedData := fun id =>
      if id ∈ s.geoJsonLayers then
        { s.importedData id with visible := !s.showAllLayers }
      else s.importedData id
    showAllLayers := !s.showAllLayers }

/-- The `'delete'` branch of `handleLayerAction` (lines 146-149):
`map.removeLayer(layer)` removes the object from the map's layer
collection if present, and `setGeoJsonLayers(geoJsonLayers.filter(l => l
!== layer))` keeps every imported layer other than the argument.  `filter`
always produces a fresh array, so the `geoJsonLayers` dependency changes
and the layer-rebuild effect re-runs. -/
def handleLayerDelete (s : AppState) (layer : LayerRef) : AppState :=
  basemapEffect
    { s with
      mapLayers := s.mapLayers.erase layer
      geoJsonLayers := s.geoJsonLayers.filter
        (fun id => LayerRef.imported id != layer) }

/-- The `'showHide'` branch of `handleLayerAction` (lines 164-166):
`layer.setVisible(!layer.getVisible())` on an imported layer object. -/
def handleLayerShowHide (s : AppState) (id : Nat) : AppState :=
  { s with
    importedData := Function.update s.importedData id
      { s.importedData id with visible := !(s.importedData id).visible } }

/-- `handleModifyFeatures` (lines 172-175): constructs a `Modify` bound to
`vectorSource.current` and adds it to the map, removing nothing. -/
def handleModifyFeatures (s : AppState) : AppState :=
  { s with
    interactions := s.interactions ++ [.modify s.nextIid]
    nextIid := s.nextIid + 1 }

/-- `handleTranslateFeatures` (lines 177-180): constructs a `Translate`
over `vectorSource.current.getFeatures()` — a fresh array holding the
source's features at call time — and adds it to the map, removing
nothing. -/
def handleTranslateFeatures (s : AppState) : AppState :=
  { s with
    interactions := s.interactions ++ [.translate s.vectorSource s.nextIid]
    nextIid := s.nextIid + 1 }

/-- `handleStyleChange(layer, property, value)` (lines 182-194), operating
on the layer object's mutable data: reads the layer's style (or a fresh
`Style`), its stroke (or a fresh `Stroke`) and fill (or a fresh `Fill`),
overwrites the one field selected by `property`, and writes stroke, fill
and style back onto the layer.  No value is validated and no error path
exists. -/
def handleStyleChange (layer : LayerData) (property : StyleProp)
    (value : StyleValue) : LayerData :=
  let layerStyle := layer.style.getD {}
  let stroke := layerStyle.stroke.getD {}
  let fill := layerStyle.fill.getD {}
  let stroke :=
    match property, value with
    | .color, .colorVal v => { stroke with color := some (.hex v) }
    | .strokeWidth, .numVal v => { stroke with width := some v }
    | _, _ => stroke
  let fill :=
    match property, value with
    | .fillOpacity, .numVal v => { fill with color := some (.rgba 255 255 255 v) }
    | _, _ => fill
  { layer with style := some { layerStyle with stroke := some stroke, fill := some fill } }

/-- Style change applied to an imported layer object held in the state. -/
def applyStyleChange (s : AppState) (id : Nat) (p : StyleProp)
    (v : StyleValue) : AppState :=
  { s with
    importedData := Function.update s.importedData id
      (handleStyleChange (s.importedData id) p v) }

/-- Moving a feature by a drag delta: every coordinate is shifted. -/
def moveFeature (dx dy : ℚ) (g : Feature) : Feature :=
  { g with coords := g.coords.map (fun c => (c.1 + dx, c.2 + dy)) }

/-- The effect of a translate drag on one feature object: it is shifted
when it is one of the features of the interaction's collection `snap`,
untouched otherwise. -/
def applyTranslateTo (snap : List Feature) (dx dy : ℚ) (g : Feature) : Feature :=
  if snap.any (fun h => h.fid == g.fid) then moveFeature dx dy g else g

/-- A pointer drag handled by a `Translate` interaction whose `features`
option holds `snap`: OpenLayers `Translate` moves exactly the features of
its collection, and features are shared by reference with the vector
source, so the store's entries with those identities are shifted by the
drag delta. -/
def translateDrag (s : AppState) (snap : List Feature) (dx dy : ℚ) : AppState :=
  { s with vectorSource := s.vectorSource.map (applyTranslateTo snap dx dy) }

/-- The state after mount: the mount effect (lines 24-45) builds a map
with an OSM tile layer and the freehand vector layer, and the layer-rebuild
effect then runs once with `layerType = 'osm'` and no imported layers;
`showAllLayers` starts true, no interaction is installed. -/
def initState : AppState :=
  { layerType := .osm
    mapLayers := [.tile .osm, .freehand]
    geoJsonLayers := []
    importedData := fun _ => {}
    showAllLayers := true
    nextLayerId := 0
    interactions := []
    drawInteraction := none
    vectorSource := []
    nextIid := 0 }

/-- The user-triggerable operations of the component: the three draw
buttons, finishing a shape (which fires the current draw's `drawend`
handler if a draw is installed and does nothing otherwise), the modify
and translate buttons, the basemap select, a successful GeoJSON import,
the show/hide-all checkbox, and the per-imported-layer delete,
show/hide and style controls. -/
inductive Op
  | startDraw (t : DrawType)
  | finishDraw (f : Feature)
  | startModify
  | startTranslate
  | selectBasemap (k : BaseKind)
  | importGeoJSON (features : List Feature)
  | toggleShowAll
  | deleteImported (id : Nat)
  | showHideLayer (id : Nat)
  | changeStyle (id : Nat) (p : StyleProp) (v : StyleValue)

/-- Dispatch of one operation to its handler. -/
def applyOp (s : AppState) : Op → AppState
  | .startDraw t => addDrawInteraction s t
  | .finishDraw f =>
      match s.drawInteraction with
      | some d => drawEnd s d f
      | none => s
  | .startModify => handleModifyFeatures s
  | .startTranslate => handleTranslateFeatures s
  | .selectBasemap k => handleLayerChange s k
  | .importGeoJSON features => handleGeoJSONImport s features
  | .toggleShowAll => handleShowHideAll s
  | .deleteImported id => handleLayerDelete s (.imported id)
  | .showHideLayer id => handleLayerShowHide s id
  | .changeStyle id p v => applyStyleChange s id p v

/-- Running a sequence of operations from a state. -/
def runOps (s : AppState) (ops : List Op) : AppState :=
  ops.foldl applyOp s

/-- The number of `Draw` interactions installed on the map. -/
def drawCount (s : AppState) : Nat :=
  (s.interactions.filter Interaction.isDraw).length

/-- The flattened fill color of a layer object, `none` when no style or
no fill or no fill color is set. -/
def LayerData.fillColor (l : LayerData) : Option Color :=
  (l.style.bind OLStyle.fill).bind Fill.color

/-- The flattened stroke color of a layer object. -/
def LayerData.strokeColor (l : LayerData) : Option Color :=
  (l.style.bind OLStyle.stroke).bind Stroke.color

/-- The flattened stroke width of a layer object. -/
def LayerData.strokeWidth (l : LayerData) : Option ℚ :=
  (l.style.bind OLStyle.stroke).bind Stroke.width

/-- Invariant relating the map's interaction collection to the tracked
`drawInteraction` state: at most one `Draw` is installed, and every
installed `Draw` is the tracked one. -/
def DrawInv (s : AppState) : Prop :=
  drawCount s ≤ 1 ∧
  ∀ i ∈ s.interactions, i.isDraw = true → s.drawInteraction = some i.iid

theorem isDraw_false_of_filter_ne (l : List Interaction) (d : Nat)
    (h : ∀ i ∈ l, i.isDraw = true → i.iid = d) :
    ∀ i ∈ l.filter (fun i => i.iid != d), i.isDraw = false := by
  intro i hi
  rw [List.mem_filter] at hi
  cases hd : i.isDraw
  · rfl
  · exact absurd (h i hi.1 hd) (by simpa using hi.2)

theorem filter_isDraw_eq_nil (l : List Interaction)
    (h : ∀ i ∈ l, i.isDraw = false) : l.filter Interaction.isDraw = [] := by
  rw [List.filter_eq_nil_iff]
  intro i hi
  simp [h i hi]

theorem drawInv_applyOp (s : AppState) (op : Op) (h : DrawInv s) :
    DrawInv (applyOp s op) := by
  obtain ⟨h1, h2⟩ := h
  cases op with
  | startDraw t =>
      cases hd : s.drawInteraction with
      | none =>
          have hnone : ∀ i ∈ s.interactions, i.isDraw = false := by
            intro i hi
            cases hdi : i.isDraw
            · rfl
            · exact absurd (h2 i hi hdi) (by simp [hd])
          constructor
          · simp [applyOp, addDrawInteraction, hd, drawCount, List.filter_append,
              filter_isDraw_eq_nil _ hnone, Interaction.isDraw]
          · intro i hi hdi
            simp [applyOp, addDrawInteraction, hd] at hi ⊢
            rcases hi with hi | hi
            · exact absurd hdi (by simp [hnone i hi])
            · simp [hi, Interaction.iid]
      | some d =>
          have hiid : ∀ i ∈ s.interactions, i.isDraw = true → i.iid = d := by
            intro i hi hdi
            have := h2 i hi hdi
            rw [hd] at this
            exact (Option.some_inj.mp this).symm
          have hnone := isDraw_false_of_filter_ne s.interactions d hiid
          constructor
          · simp [applyOp, addDrawInteraction, hd, drawCount, List.filter_append,
              filter_isDraw_eq_nil _ hnone, Interaction.isDraw]
          · intro i hi hdi
            simp [applyOp, addDrawInteraction, hd] at hi ⊢
            rcases hi with hi | hi
            · exact absurd hdi (by simp [hnone i (List.mem_filter.mpr (by simpa using hi))])
            · simp [hi, Interaction.iid]
  | finishDraw f =>
      cases hd : s.drawInteraction with
      | none => exact ⟨by simpa [applyOp, hd] using h1, by simpa [applyOp, hd] using h2⟩
      | some d =>
          have hiid : ∀ i ∈ s.interactions, i.isDraw = true → i.iid = d := by
            intro i hi hdi
            have := h2 i hi hdi
            rw [hd] at this
            exact (Option.some_inj.mp this).symm
          have hnone := isDraw_false_of_filter_ne s.interactions d hiid
          constructor
          · simp [applyOp, hd, drawEnd, drawCount, filter_isDraw_eq_nil _ hnone]
          · intro i hi hdi
            simp [applyOp, hd, drawEnd] at hi
            exact absurd hdi (by simp [hnone i (List.mem_filter.mpr (by simpa using hi))])
  | startModify =>
      constructor
      · simpa [applyOp, handleModifyFeatures, drawCount, List.filter_append,
          Interaction.isDraw] using h1
      · intro i hi hdi
        simp [applyOp, handleModifyFeatures] at hi ⊢
        rcases hi with hi | hi
        · exact h2 i hi hdi
        · exact absurd hdi (by simp [hi, Interaction.isDraw])
  | startTranslate =>
      constructor
      · simpa [applyOp, handleTranslateFeatures, drawCount, List.filter_append,
          Interaction.isDraw] using h1
      · intro i hi hdi
        simp [applyOp, handleTranslateFeatures] at hi ⊢
        rcases hi with hi | hi
        · exact h2 i hi hdi
        · exact absurd hdi (by simp [hi, Interaction.isDraw])
  | selectBasemap k =>
      exact ⟨by simpa [applyOp, handleLayerChange, basemapEffect, drawCount] using h1,
        by simpa [applyOp, handleLayerChange, basemapEffect] using h2⟩
  | importGeoJSON features =>
      exact ⟨by simpa [applyOp, handleGeoJSONImport, basemapEffect, drawCount] using h1,
        by simpa [applyOp, handleGeoJSONImport, basemapEffect] using h2⟩
  | toggleShowAll =>
      exact ⟨by simpa [applyOp, handleShowHideAll, drawCount] using h1,
        by simpa [applyOp, handleShowHideAll] using h2⟩
  | deleteImported id =>
      exact ⟨by simpa [applyOp, handleLayerDelete, basemapEffect, drawCount] using h1,
        by simpa [applyOp, handleLayerDelete, basemapEffect] using h2⟩
  | showHideLayer id =>
      exact ⟨by simpa [applyOp, handleLayerShowHide, drawCount] using h1,
        by simpa [applyOp, handleLayerShowHide] using h2⟩
  | changeStyle id p v =>
      exact ⟨by simpa [applyOp, applyStyleChange, drawCount] using h1,
        by simpa [applyOp, applyStyleChange] using h2⟩

theorem drawInv_runOps (s : AppState) (ops : List Op) (h : DrawInv s) :
    DrawInv (runOps s ops) := by
  induction ops generalizing s with
  | nil => exact h
  | cons op ops ih => exact ih (applyOp s op) (drawInv_applyOp s op h)

/-- C1: the mutual-exclusion claim is false on the code: clicking the
Modify button and then the Translate button installs two interactions,
both of which remain active (the code never deactivates or detaches
either; only `addDrawInteraction` removes a previous Draw). -/
theorem c1_mutual_exclusion_counterexample :
    ¬ ((runOps initState [.startModify, .startTranslate]).interactions.length ≤ 1) := by
  decide

/-- C1 amended: only the Draw interaction is mutually excluded with
itself — `addDrawInteraction` removes the previously tracked Draw before
installing a new one, so after every sequence of user operations at most
one Draw interaction is installed; `handleModifyFeatures` and
`handleTranslateFeatures` deactivate nothing, so Modify and Translate
interactions accumulate and no cross-kind mutual exclusion holds (and the
code offers no stop operation at all). -/
theorem c1_amended_at_most_one_draw (ops : List Op) :
    drawCount (runOps initState ops) ≤ 1 :=
  (drawInv_runOps initState ops ⟨by decide, by decide⟩).1

/-- A sample imported layer object carrying the import-time style. -/
def demoLayer : LayerData :=
  { visible := true, style := some importStyle, features := [] }

theorem handleStyleChange_fillOpacity (layer : LayerData) (v : ℚ) :
    (handleStyleChange layer .fillOpacity (.numVal v)).fillColor
        = some (Color.rgba 255 255 255 v) ∧
    (handleStyleChange layer .fillOpacity (.numVal v)).strokeColor
        = layer.strokeColor ∧
    (handleStyleChange layer .fillOpacity (.numVal v)).strokeWidth
        = layer.strokeWidth := by
  unfold handleStyleChange LayerData.fillColor LayerData.strokeColor LayerData.strokeWidth
  cases hs : layer.style with
  | none => simp
  | some st =>
      cases hst : st.stroke with
      | none => simp [hst]
      | some sk => simp [hst]

/-- C3: the validation claim is false on the code: `handleStyleChange`
checks nothing, so applying a fill opacity of 2 (outside the closed unit
interval) does not leave the prior style unchanged — it overwrites the
fill color with `rgba(255, 255, 255, 2)` — and no `InvalidStyleValue`
failure exists anywhere (the handler is a total function with no error
path). -/
theorem c3_style_validation_counterexample :
    handleStyleChange demoLayer .fillOpacity (.numVal 2) ≠ demoLayer ∧
    (handleStyleChange demoLayer .fillOpacity (.numVal 2)).fillColor
        = some (Color.rgba 255 255 255 2) := by
  refine ⟨?_, rfl⟩
  intro h
  have h1 : (handleStyleChange demoLayer .fillOpacity (.numVal 2)).fillColor
      = demoLayer.fillColor := by rw [h]
  have h2 : some (Color.rgba 255 255 255 2)
      = some (Color.rgba 255 255 255 (0.6 : ℚ)) := h1
  rw [Option.some_inj] at h2
  injection h2 with hr hg hb ha
  norm_num at ha

/-- C3 amended: `handleStyleChange` performs no range validation and has
no failure path at all; for every opacity value, including values outside
the closed unit interval, it overwrites the layer's fill color with
`rgba(255, 255, 255, value)`, and every stroke width, including widths not
greater than 0, is likewise accepted and written into the style. -/
theorem c3_amended_no_validation (layer : LayerData) (v w : ℚ)
    (hv : v < 0 ∨ 1 < v) (hw : ¬ 0 < w) :
    (handleStyleChange layer .fillOpacity (.numVal v)).fillColor
        = some (Color.rgba 255 255 255 v) ∧
    (handleStyleChange layer .strokeWidth (.numVal w)).strokeWidth = some w := by
  refine ⟨(handleStyleChange_fillOpacity layer v).1, ?_⟩
  unfold handleStyleChange LayerData.strokeWidth
  cases hs : layer.style with
  | none => simp
  | some st =>
      cases hst : st.stroke with
      | none => simp [hst]
      | some sk => simp [hst]

theorem c3_amended_no_validation_witness :
    ((2 : ℚ) < 0 ∨ 1 < (2 : ℚ)) ∧ (¬ (0 : ℚ) < 0) ∧
    ((handleStyleChange demoLayer .fillOpacity (.numVal 2)).fillColor
        = some (Color.rgba 255 255 255 2) ∧
     (handleStyleChange demoLayer .strokeWidth (.numVal 0)).strokeWidth
        = some 0) :=
  ⟨Or.inr (by norm_num), by norm_num,
    c3_amended_no_validation demoLayer 2 0 (Or.inr (by norm_num)) (by norm_num)⟩

/-- C10: a `'fillOpacity'` style change sets the layer's fill color to
exactly `rgba(255, 255, 255, value)` — any previously set fill color is
discarded and replaced by white at the given opacity — while the layer's
stroke color and stroke width are left unchanged. -/
theorem c10_fill_opacity_overwrites_fill (layer : LayerData) (v : ℚ) :
    (handleStyleChange layer .fillOpacity (.numVal v)).fillColor
        = some (Color.rgba 255 255 255 v) ∧
    (handleStyleChange layer .fillOpacity (.numVal v)).strokeColor
        = layer.strokeColor ∧
    (handleStyleChange layer .fillOpacity (.numVal v)).strokeWidth
        = layer.strokeWidth :=
  handleStyleChange_fillOpacity layer v

/-- The state after toggling show-all off and then importing one layer:
the show-all flag is false while the freshly imported layer (id 0) is
visible, because the import never consults the flag. -/
def toggledImportState : AppState :=
  runOps initState [.toggleShowAll, .importGeoJSON []]

/-- C4: the self-inverse claim is false on the code: in a reachable state
where an imported layer's visibility (true) differs from the show-all
flag (false), two successive `handleShowHideAll` calls leave the layer
hidden, not restored to its prior visibility — the toggle broadcasts the
shared flag value, it does not remember per-layer state. -/
theorem c4_toggle_counterexample :
    ¬ (((handleShowHideAll (handleShowHideAll toggledImportState)).importedData 0).visible
        = (toggledImportState.importedData 0).visible) := by
  decide

/-- C4 amended: two successive `handleShowHideAll` calls restore the flag
and set every imported layer's visibility to the flag's value before the
first call — so a layer's visibility is restored exactly when it already
equaled the flag; a single call sets every imported layer's visibility to
the negation of the flag's pre-toggle value. -/
theorem c4_amended_toggle_broadcast (s : AppState) (id : Nat)
    (h : id ∈ s.geoJsonLayers) :
    ((handleShowHideAll (handleShowHideAll s)).importedData id).visible
        = s.showAllLayers ∧
    (handleShowHideAll (handleShowHideAll s)).showAllLayers = s.showAllLayers ∧
    ((handleShowHideAll s).importedData id).visible = !s.showAllLayers := by
  simp [handleShowHideAll, h]

theorem c4_amended_toggle_broadcast_witness :
    (0 ∈ toggledImportState.geoJsonLayers) ∧
    ((handleShowHideAll (handleShowHideAll toggledImportState)).importedData 0).visible
        = toggledImportState.showAllLayers :=
  ⟨by decide, (c4_amended_toggle_broadcast toggledImportState 0 (by decide)).1⟩

/-- The map's layer collection is in the form the layer-rebuild effect
leaves it in: basemap tile first, then the freehand layer, then every
imported layer in registry order. -/
def Normal (s : AppState) : Prop :=
  s.mapLayers = .tile s.layerType :: .freehand :: s.geoJsonLayers.map .imported

theorem normal_applyOp (s : AppState) (op : Op) (h : Normal s) :
    Normal (applyOp s op) := by
  cases op with
  | startDraw t =>
      cases hd : s.drawInteraction <;>
        simpa [applyOp, addDrawInteraction, hd, Normal] using h
  | finishDraw f =>
      cases hd : s.drawInteraction <;>
        simpa [applyOp, drawEnd, hd, Normal] using h
  | startModify => simpa [applyOp, handleModifyFeatures, Normal] using h
  | startTranslate => simpa [applyOp, handleTranslateFeatures, Normal] using h
  | selectBasemap k => simp [applyOp, handleLayerChange, basemapEffect, Normal]
  | importGeoJSON features =>
      simp [applyOp, handleGeoJSONImport, basemapEffect, Normal]
  | toggleShowAll => simpa [applyOp, handleShowHideAll, Normal] using h
  | deleteImported id => simp [applyOp, handleLayerDelete, basemapEffect, Normal]
  | showHideLayer id => simpa [applyOp, handleLayerShowHide, Normal] using h
  | changeStyle id p v => simpa [applyOp, applyStyleChange, Normal] using h

theorem normal_runOps (ops : List Op) : Normal (runOps initState ops) := by
  suffices h : ∀ s, Normal s → Normal (runOps s ops) from h initState rfl
  induction ops with
  | nil => exact fun s h => h
  | cons op ops ih => exact fun s h => ih (applyOp s op) (normal_applyOp s op h)

/-- C5: in every state reachable by user operations, the freehand layer is
present on the map; applying the delete action to the freehand layer is a
no-op on the resulting state (the `removeLayer` call takes it off the map,
but the registry filter keeps every imported layer and the layer-rebuild
effect immediately re-adds a freehand layer backed by the same persistent
vector source, so the state is unchanged); applying the delete action to
an imported layer does remove that layer. -/
theorem c5_freehand_permanent (ops : List Op) :
    LayerRef.freehand ∈ (runOps initState ops).mapLayers ∧
    handleLayerDelete (runOps initState ops) .freehand = runOps initState ops ∧
    ∀ id, LayerRef.imported id ∉
      (handleLayerDelete (runOps initState ops) (.imported id)).mapLayers := by
  have hN : Normal (runOps initState ops) := normal_runOps ops
  refine ⟨by rw [hN]; simp, ?_, ?_⟩
  · have hfilter : (runOps initState ops).geoJsonLayers.filter
        (fun id => LayerRef.imported id != LayerRef.freehand)
          = (runOps initState ops).geoJsonLayers :=
      List.filter_eq_self.mpr (fun a _ => by simp)
    apply AppState.ext <;>
      simp [handleLayerDelete, basemapEffect, hfilter, hN.symm]
  · intro id
    simp [handleLayerDelete, basemapEffect, List.mem_filter]

/-- C6: the visibility clause is false on the code: `handleGeoJSONImport`
never consults `showAllLayers` (the `VectorLayer` is constructed without a
`visible` option, so it gets the library default, visible), as the
reachable state with the flag false and the new layer visible shows. -/
theorem c6_import_visibility_counterexample :
    toggledImportState.showAllLayers = false ∧
    toggledImportState.geoJsonLayers = [0] ∧
    (toggledImportState.importedData 0).visible = true := by
  decide

/-- C6 amended: a successful import creates exactly one new layer holding
the parsed features, with the default style (stroke `'#319FD3'` of width
1, fill `rgba(255, 255, 255, 0.6)`), appended at the end of the registry's
insertion order and placed last on the map; its visibility is the library
default true regardless of the global show-all flag, which the import
leaves untouched; no other layer's data changes. -/
theorem c6_amended_import_creates_layer (s : AppState) (features : List Feature) :
    (handleGeoJSONImport s features).geoJsonLayers
        = s.geoJsonLayers ++ [s.nextLayerId] ∧
    (handleGeoJSONImport s features).importedData s.nextLayerId
        = { visible := true, style := some importStyle, features := features } ∧
    (∀ id, id ≠ s.nextLayerId →
      (handleGeoJSONImport s features).importedData id = s.importedData id) ∧
    (handleGeoJSONImport s features).mapLayers
        = .tile s.layerType :: .freehand
            :: (s.geoJsonLayers ++ [s.nextLayerId]).map .imported ∧
    (handleGeoJSONImport s features).showAllLayers = s.showAllLayers := by
  refine ⟨rfl, ?_, ?_, rfl, rfl⟩
  · simp [handleGeoJSONImport, basemapEffect]
  · intro id hid
    simp [handleGeoJSONImport, basemapEffect, Function.update_noteq hid]

theorem c6_amended_import_creates_layer_witness :
    ((1 : Nat) ≠ initState.nextLayerId) ∧
    (handleGeoJSONImport initState []).importedData 1 = initState.importedData 1 :=
  ⟨by decide, (c6_amended_import_creates_layer initState []).2.2.1 1 (by decide)⟩

/-- C9: changing the basemap selection clears and rebuilds the map's layer
collection as `[tile, freehand, imported...]`: the freehand layer is
re-added backed by the same shared vector source — whose features are
untouched, so every drawn feature survives — and every imported layer is
re-added after it in its original insertion order, with all per-layer data
unchanged. -/
theorem c9_basemap_switch_preserves_vector_state (s : AppState) (k : BaseKind) :
    (handleLayerChange s k).mapLayers
        = .tile k :: .freehand :: s.geoJsonLayers.map .imported ∧
    (handleLayerChange s k).vectorSource = s.vectorSource ∧
    (handleLayerChange s k).geoJsonLayers = s.geoJsonLayers ∧
    ∀ id, (handleLayerChange s k).importedData id = s.importedData id :=
  ⟨rfl, rfl, rfl, fun _ => rfl⟩

/-- A sample feature used in concrete instantiations. -/
def feat0 : Feature := { fid := 0, coords := [(0, 0)] }

/-- C7: drawing is one-shot: when the user completes a shape while the
tracked draw interaction `d` is installed (interaction state well formed),
the completed feature is appended to the geometry store, the tracked draw
state returns to null, no Draw interaction remains installed on the map,
and a further shape-completion event changes nothing — drawing another
feature requires a new `addDrawInteraction` call. -/
theorem c7_draw_one_shot (s : AppState) (d : Nat) (f : Feature)
    (hInv : DrawInv s) (hd : s.drawInteraction = some d) :
    (drawEnd s d f).vectorSource = s.vectorSource ++ [f] ∧
    (drawEnd s d f).drawInteraction = none ∧
    (∀ i ∈ (drawEnd s d f).interactions, i.isDraw = false) ∧
    (∀ g, applyOp (drawEnd s d f) (.finishDraw g) = drawEnd s d f) := by
  obtain ⟨h1, h2⟩ := hInv
  have hiid : ∀ i ∈ s.interactions, i.isDraw = true → i.iid = d := by
    intro i hi hdi
    have h := h2 i hi hdi
    rw [hd] at h
    exact (Option.some_inj.mp h).symm
  exact ⟨rfl, rfl, isDraw_false_of_filter_ne s.interactions d hiid, fun g => rfl⟩

theorem c7_draw_one_shot_witness :
    DrawInv (addDrawInteraction initState .point) ∧
    (addDrawInteraction initState .point).drawInteraction = some 0 ∧
    (drawEnd (addDrawInteraction initState .point) 0 feat0).vectorSource
        = (addDrawInteraction initState .point).vectorSource ++ [feat0] :=
  ⟨⟨by decide, by decide⟩, by decide,
    (c7_draw_one_shot (addDrawInteraction initState .point) 0 feat0
      ⟨by decide, by decide⟩ (by decide)).1⟩

theorem applyTranslateTo_fid (snap : List Feature) (dx dy : ℚ) (g : Feature) :
    (applyTranslateTo snap dx dy g).fid = g.fid := by
  unfold applyTranslateTo
  split <;> simp [moveFeature]

theorem applyTranslateTo_of_not_mem (snap : List Feature) (dx dy : ℚ)
    (g : Feature) (h : snap.any (fun x => x.fid == g.fid) = false) :
    applyTranslateTo snap dx dy g = g := by
  simp [applyTranslateTo, h]

theorem mem_addDrawInteraction_of_ne (s : AppState) (t : DrawType)
    (i : Interaction) (hi : i ∈ s.interactions)
    (hne : ∀ d, s.drawInteraction = some d → i.iid ≠ d) :
    i ∈ (addDrawInteraction s t).interactions := by
  cases hd : s.drawInteraction with
  | none => simp [addDrawInteraction, hd, hi]
  | some d =>
      have h := hne d hd
      simp [addDrawInteraction, hd, List.mem_filter, hi, h]

theorem addDrawInteraction_vectorSource (s : AppState) (t : DrawType) :
    (addDrawInteraction s t).vectorSource = s.vectorSource := by
  cases hd : s.drawInteraction <;> simp [addDrawInteraction, hd]

/-- C8: the translate interaction operates on a snapshot: starting a
translate captures the store's feature array at call time; a feature drawn
and completed afterwards (its identity fresh for the store) is not in that
snapshot, and a drag handled by this translate interaction leaves the new
feature exactly as it was — only a translate restart could pick it up. -/
theorem c8_translate_snapshot (s : AppState) (t : DrawType) (f : Feature)
    (hdi : ∀ d, s.drawInteraction = some d → d < s.nextIid)
    (hf : ∀ g ∈ s.vectorSource, g.fid ≠ f.fid) :
    Interaction.translate s.vectorSource s.nextIid ∈
      (drawEnd (addDrawInteraction (handleTranslateFeatures s) t)
        (s.nextIid + 1) f).interactions ∧
    f ∉ s.vectorSource ∧
    ∀ dx dy,
      ((translateDrag
          (drawEnd (addDrawInteraction (handleTranslateFeatures s) t)
            (s.nextIid + 1) f)
          s.vectorSource dx dy).vectorSource).filter (fun g => g.fid == f.fid)
        = [f] := by
  have hanyf : s.vectorSource.any (fun x => x.fid == f.fid) = false := by
    rw [List.any_eq_false]
    intro g hg
    simp [hf g hg]
  refine ⟨?_, fun hmem => hf f hmem rfl, ?_⟩
  · have hTmem : Interaction.translate s.vectorSource s.nextIid ∈
        (addDrawInteraction (handleTranslateFeatures s) t).interactions := by
      apply mem_addDrawInteraction_of_ne
      · simp [handleTranslateFeatures]
      · intro d hd
        have hlt : d < s.nextIid := hdi d (by simpa [handleTranslateFeatures] using hd)
        simp [Interaction.iid]
        omega
    simp only [drawEnd, List.mem_filter]
    refine ⟨hTmem, ?_⟩
    simp [Interaction.iid]
  · intro dx dy
    have hvs : (drawEnd (addDrawInteraction (handleTranslateFeatures s) t)
        (s.nextIid + 1) f).vectorSource = s.vectorSource ++ [f] := by
      simp [drawEnd, addDrawInteraction_vectorSource, handleTranslateFeatures]
    simp only [translateDrag, hvs, List.map_append, List.filter_append]
    have h1 : ((s.vectorSource.map (applyTranslateTo s.vectorSource dx dy)).filter
        (fun g => g.fid == f.fid)) = [] := by
      rw [List.filter_eq_nil_iff]
      intro a ha
      rw [List.mem_map] at ha
      obtain ⟨g, hg, rfl⟩ := ha
      simp [applyTranslateTo_fid, hf g hg]
    have h2 : (([f].map (applyTranslateTo s.vectorSource dx dy)).filter
        (fun g => g.fid == f.fid)) = [f] := by
      simp [applyTranslateTo_of_not_mem s.vectorSource dx dy f hanyf]
    rw [h1, h2, List.nil_append]

theorem c8_translate_snapshot_witness :
    (∀ d, initState.drawInteraction = some d → d < initState.nextIid) ∧
    (∀ g ∈ initState.vectorSource, g.fid ≠ feat0.fid) ∧
    Interaction.translate initState.vectorSource initState.nextIid ∈
      (drawEnd (addDrawInteraction (handleTranslateFeatures initState) .point)
        (initState.nextIid + 1) feat0).interactions :=
  ⟨fun d h => absurd h (by simp [initState]), by decide,
    (c8_translate_snapshot initState .point feat0
      (fun d h => absurd h (by simp [initState])) (by decide)).1⟩

end BasicOpenLayers
